import Mathlib

/-!
Verification of the quran-reminder desktop application
(`src/desktop/app.py`) against its natural-language specification.

The application is a Qt tray utility.  Its behavioural core, embedded
shallowly below, consists of:

* `AyahFetcher.run` — a background fetch: a connectivity check followed by
  a retry loop that picks a random ayah number, issues one HTTP GET,
  parses the JSON response, composes a message string, and emits the
  result once the message length is within the configured bound;
* `QuranReminderApp.load_config` / `save_config` — flat JSON settings
  persistence;
* `QuranReminderApp.start_reminders` / `stop_reminders` /
  `show_settings` / `fetch_and_show_ayah` / `display_ayah` — the tray
  application's state transitions (timer, menu-action enablement,
  current notification, settings dialog);
* `SettingsDialog.save_settings` — the dialog's commit of widget values.

Modelling conventions:

* The network environment is a function `Nat → ApiResult` giving the
  outcome of the verse-API GET issued by each successive loop attempt.
  `ApiResult.failure` collapses everything the Python code turns into an
  exception: a request error, a non-success HTTP status rejected by
  `raise_for_status`, malformed JSON, or JSON missing the accessed
  fields.  `ApiResult.success` carries the fields the code reads.
* The unbounded `while True` loop is embedded with explicit fuel; the
  outcome `RunOutcome.outOfFuel` means the loop is still running after
  that many attempts, so "the loop never terminates" is rendered as
  "for every fuel the outcome is `outOfFuel`".
* Python string length (`len`, a count of characters) is `String.length`.
* The settings file is `Option (Option JVal)`: `none` = file absent,
  `some none` = present but unreadable or not valid JSON, `some (some j)`
  = readable and parsing to the JSON value `j`.  The byte-level encoding
  and decoding are Python's `json` standard library, external to this
  repository, and are abstracted as faithful; JSON numbers are modelled
  as integers (the configuration only stores integers, booleans and
  strings).
-/

namespace QuranReminder

/-- The outcome, as observed by `AyahFetcher.run`, of one HTTP GET to the
verse API.  `failure` covers a raised request exception, a non-2xx status
(raised by `raise_for_status`), and malformed or incomplete JSON; `success`
carries `data[0]["text"]`, `data[1]["text"]`, `data[0]["surah"]["number"]`
and `data[0]["numberInSurah"]`. -/
inductive ApiResult where
  | failure : ApiResult
  | success (arabic persian : String) (surah numberInSurah : Nat) : ApiResult
deriving DecidableEq

/-- The payload of the `ayah_fetched` signal: the three string arguments
`(arabic, persian, reference)` passed to `emit`. -/
structure Emitted where
  arabic : String
  persian : String
  reference : String
deriving DecidableEq

/-- How one call to `AyahFetcher.run` ends.  `emitted e` — the signal was
emitted with payload `e` and the loop broke; `silentFail` — an exception
was swallowed by a bare `except` (connectivity check failed, or a request
or parse failed inside the loop) and the thread returned with no emission;
`outOfFuel` — the loop is still iterating after the given fuel. -/
inductive RunOutcome where
  | emitted (e : Emitted) : RunOutcome
  | silentFail : RunOutcome
  | outOfFuel : RunOutcome
deriving DecidableEq

/-- `reference = f"Quran {surah}:{ayah}"` (app.py line 57). -/
def composeReference (surah numberInSurah : Nat) : String :=
  "Quran " ++ toString surah ++ ":" ++ toString numberInSurah

/-- `message = f"{arabic}\n\n{persian}\n— {reference}"` (app.py line 59). -/
def composeMessage (arabic persian reference : String) : String :=
  arabic ++ "\n\n" ++ persian ++ "\n— " ++ reference

/-- `self.total_ayahs = 6236` (app.py line 32). -/
def total_ayahs : Nat := 6236

/-- Python's `random.randint(lo, hi)` (both endpoints inclusive), with the
underlying draw abstracted as an arbitrary natural `x`. -/
def randint (lo hi x : Nat) : Nat := lo + x % (hi + 1 - lo)

/-- The ayah number picked by loop attempt `k`:
`ayah_number = random.randint(1, self.total_ayahs)` (app.py line 45),
with `randoms` the abstracted stream of random draws. -/
def ayahNumberAt (randoms : Nat → Nat) (k : Nat) : Nat :=
  randint 1 total_ayahs (randoms k)

/-- Whether the message composed from response `r` exists and exceeds the
bound `m` — the exact condition under which the `while True` loop retries
(the negation of `len(message) <= self.max_length`, app.py line 61).
`failure` yields no composed message, so it is not "too long". -/
def isTooLong (m : Nat) : ApiResult → Bool
  | .failure => false
  | .success arabic persian surah numberInSurah =>
      decide (m <
        (composeMessage arabic persian (composeReference surah numberInSurah)).length)

/-- The `while True` loop of `AyahFetcher.run` (app.py lines 44-63),
with `start` the index of the current attempt in the response stream and
explicit fuel.  Each iteration issues exactly one GET (consumes one entry
of `resp`); a failed GET or parse raises, escaping to the outer `except`
(`silentFail`); a composed message within the bound is emitted and the
loop breaks; a too-long message retries with the next attempt. -/
def fetchLoop (m : Nat) (resp : Nat → ApiResult) : Nat → Nat → RunOutcome
  | _start, 0 => .outOfFuel
  | start, fuel + 1 =>
    match resp start with
    | .failure => .silentFail
    | .success arabic persian surah numberInSurah =>
      let reference := composeReference surah numberInSurah
      let message := composeMessage arabic persian reference
      if message.length ≤ m then .emitted ⟨arabic, persian, reference⟩
      else fetchLoop m resp (start + 1) fuel

/-- `AyahFetcher.run` (app.py lines 35-67): the connectivity check
(`requests.get("https://www.google.com", timeout=3)`, whose failure means
`online = false` and an immediate silent return), then the retry loop.
`max_length` is the bound stored by `AyahFetcher.__init__`. -/
def AyahFetcher.run (max_length : Nat) (online : Bool) (resp : Nat → ApiResult)
    (fuel : Nat) : RunOutcome :=
  if online then fetchLoop max_length resp 0 fuel else .silentFail

/-- `fetchLoop` instrumented with observation counters: the second
component counts HTTP GETs issued to the verse API (one per executed
attempt) and the third counts `ayah_fetched.emit` calls. -/
def fetchLoopTrace (m : Nat) (resp : Nat → ApiResult) :
    Nat → Nat → RunOutcome × Nat × Nat
  | _start, 0 => (.outOfFuel, 0, 0)
  | start, fuel + 1 =>
    match resp start with
    | .failure => (.silentFail, 1, 0)
    | .success arabic persian surah numberInSurah =>
      let reference := composeReference surah numberInSurah
      let message := composeMessage arabic persian reference
      if message.length ≤ m then (.emitted ⟨arabic, persian, reference⟩, 1, 1)
      else
        let t := fetchLoopTrace m resp (start + 1) fuel
        (t.1, t.2.1 + 1, t.2.2)

/-- A JSON value, as produced by Python's `json.load` on the settings
file.  Numbers are modelled as integers: the configuration only ever
stores integers, booleans and strings. -/
inductive JVal where
  | jnull : JVal
  | jbool : Bool → JVal
  | jnum : Int → JVal
  | jstr : String → JVal
  | jarr : List JVal → JVal
  | jobj : List (String × JVal) → JVal

/-- Key lookup in a JSON value: `some v` when the value is an object with
the key present, `none` otherwise (Python would raise `KeyError` /
`TypeError` on subscripting). -/
def jlookup (j : JVal) (key : String) : Option JVal :=
  match j with
  | .jobj fields => fields.lookup key
  | _ => none

/-- The settings file `~/.quran_reminder_config.json` as `load_config`
can observe it: `none` — `CONFIG_FILE.exists()` is false; `some none` —
the file exists but opening or `json.load` raises (unreadable or invalid
JSON); `some (some j)` — the file exists and parses to `j`. -/
def FileState : Type := Option (Option JVal)

/-- `DEFAULT_CONFIG` (app.py lines 15-22). -/
def DEFAULT_CONFIG : JVal :=
  .jobj [("interval_minutes", .jnum 60),
         ("max_length", .jnum 250),
         ("auto_start", .jbool true),
         ("language", .jstr "both"),
         ("notification_duration", .jnum 25),
         ("theme", .jstr "light")]

/-- `QuranReminderApp.load_config` (app.py lines 483-490): if the file
exists, try to parse it and return the parsed value as-is; on a missing
file or any exception, return a copy of `DEFAULT_CONFIG`.  No validation
or merging of default keys is performed. -/
def QuranReminderApp.load_config (fs : FileState) : JVal :=
  match fs with
  | some (some j) => j
  | some none => DEFAULT_CONFIG
  | none => DEFAULT_CONFIG

/-- `QuranReminderApp.save_config` (app.py lines 492-498):
`json.dump(self.config, f, indent=2)` inside `try/except pass`.  When the
write succeeds (`writeOk`) the file afterwards holds exactly the dumped
configuration; when it raises, the failure is swallowed and the file is
left as it was. -/
def QuranReminderApp.save_config (cfg : JVal) (fs : FileState) (writeOk : Bool) :
    FileState :=
  if writeOk then some (some cfg) else fs

/-- The in-memory configuration dictionary as the application code uses
it: the six keys of `DEFAULT_CONFIG`, with the types the UI code assumes. -/
structure Config where
  interval_minutes : Nat
  max_length : Nat
  auto_start : Bool
  language : String
  notification_duration : Nat
  theme : String
deriving DecidableEq

/-- The observable state of `QuranReminderApp`: the configuration, the
periodic `QTimer` (active flag and interval in milliseconds), the enabled
flags of the 'Start Reminders' and 'Pause Reminders' menu actions, the
settings file content, the current notification window's payload, the
tray balloon messages shown so far, and the `max_length` handed to the
most recently constructed `AyahFetcher`. -/
structure AppState where
  config : Config
  timerActive : Bool
  timerInterval : Nat
  start_enabled : Bool
  stop_enabled : Bool
  configFile : Option Config
  current_notification : Option Emitted
  trayMessages : List String
  lastFetcherMax : Option Nat
deriving DecidableEq

/-- `QuranReminderApp.start_reminders` (app.py lines 500-510):
`self.timer.start(self.config["interval_minutes"] * 60 * 1000)`, disable
the start action, enable the stop action, and show a tray balloon unless
`silent`. -/
def QuranReminderApp.start_reminders (s : AppState) (silent : Bool) : AppState :=
  { s with timerInterval := s.config.interval_minutes * 60 * 1000,
           timerActive := true,
           start_enabled := false,
           stop_enabled := true,
           trayMessages :=
             if silent then s.trayMessages
             else s.trayMessages ++ ["Reminders Started"] }

/-- `QuranReminderApp.stop_reminders` (app.py lines 512-520):
`self.timer.stop()` (the stored interval is untouched), enable the start
action, disable the stop action, and show a tray balloon unless `silent`. -/
def QuranReminderApp.stop_reminders (s : AppState) (silent : Bool) : AppState :=
  { s with timerActive := false,
           start_enabled := true,
           stop_enabled := false,
           trayMessages :=
             if silent then s.trayMessages
             else s.trayMessages ++ ["Reminders Paused"] }

/-- `QuranReminderApp.fetch_and_show_ayah` (app.py lines 526-530):
construct `AyahFetcher(self.config["max_length"])`, connect its signal,
and start it.  The state change visible in the model is the bound handed
to the new fetcher. -/
def QuranReminderApp.fetch_and_show_ayah (s : AppState) : AppState :=
  { s with lastFetcherMax := some s.config.max_length }

/-- `QuranReminderApp.display_ayah` (app.py lines 532-544), the slot
connected to `ayah_fetched`: close any previous notification and show a
new one with the emitted payload. -/
def QuranReminderApp.display_ayah (s : AppState) (e : Emitted) : AppState :=
  { s with current_notification := some e }

/-- The values held by the settings dialog's widgets when 'Save Settings'
is clicked: the two combo boxes' current indices and the spin boxes' and
checkbox's values. -/
structure DialogValues where
  theme_index : Fin 2
  interval_minutes : Nat
  language_index : Fin 3
  notification_duration : Nat
  max_length : Nat
  auto_start : Bool
deriving DecidableEq

/-- `theme_map = {0: "light", 1: "dark"}` (app.py line 405). -/
def theme_map (i : Fin 2) : String := if i.1 = 0 then "light" else "dark"

/-- `lang_map = {0: "both", 1: "arabic", 2: "persian"}` (app.py line 404). -/
def lang_map (i : Fin 3) : String :=
  if i.1 = 0 then "both" else if i.1 = 1 then "arabic" else "persian"

/-- `SettingsDialog.save_settings` (app.py lines 403-412), acting on the
dialog's private copy `c` of the configuration: overwrite the six keys
from the widget values (then `self.accept()`). -/
def SettingsDialog.save_settings (c : Config) (v : DialogValues) : Config :=
  { c with theme := theme_map v.theme_index,
           interval_minutes := v.interval_minutes,
           language := lang_map v.language_index,
           notification_duration := v.notification_duration,
           max_length := v.max_length,
           auto_start := v.auto_start }

/-- How a `SettingsDialog.exec_()` session ends: `rejected` — the Cancel
button (or closing the dialog); `accepted v writeOk` — 'Save Settings'
clicked with widget values `v`, where `writeOk` records whether the
subsequent `save_config` write succeeded. -/
inductive DialogResult where
  | rejected : DialogResult
  | accepted (v : DialogValues) (writeOk : Bool) : DialogResult
deriving DecidableEq

/-- `QuranReminderApp.show_settings` (app.py lines 546-555): run
`SettingsDialog(self.config)` (which works on a copy of the config); on
`Accepted`, adopt `dialog.config`, `save_config`, and if the timer is
active, silently stop and restart the reminders; otherwise do nothing. -/
def QuranReminderApp.show_settings (s : AppState) (r : DialogResult) : AppState :=
  match r with
  | .rejected => s
  | .accepted v writeOk =>
      let newCfg := SettingsDialog.save_settings s.config v
      let s1 := { s with config := newCfg,
                         configFile :=
                           if writeOk then some newCfg else s.configFile }
      if s1.timerActive then
        QuranReminderApp.start_reminders (QuranReminderApp.stop_reminders s1 true) true
      else s1

/-- `QuranReminderApp.__init__` (app.py lines 418-462): the config is
loaded, the menu is built with the start action enabled (the Qt default)
and the stop action disabled (line 437), the timer is created inactive,
there is no current notification; then, if `auto_start` is set,
`start_reminders(True)` runs. -/
def QuranReminderApp.init (loaded : Config) (fileAtInit : Option Config) : AppState :=
  let s : AppState :=
    { config := loaded,
      timerActive := false,
      timerInterval := 0,
      start_enabled := true,
      stop_enabled := false,
      configFile := fileAtInit,
      current_notification := none,
      trayMessages := [],
      lastFetcherMax := none }
  if loaded.auto_start then QuranReminderApp.start_reminders s true else s

/-- An event the running application can process: the tray menu actions,
a timer tick, and the completion of a background fetch with outcome
`out` (`fetchDone .emitted` is the `ayah_fetched` signal reaching
`display_ayah`; any other outcome delivers nothing). -/
inductive Op where
  | startRem : Op
  | stopRem : Op
  | timerTick : Op
  | showNow : Op
  | fetchDone (out : RunOutcome) : Op
  | settings (r : DialogResult) : Op
deriving DecidableEq

/-- One step of the application: dispatch an event to the handler the
source connects it to. -/
def QuranReminderApp.step (s : AppState) : Op → AppState
  | .startRem => QuranReminderApp.start_reminders s false
  | .stopRem => QuranReminderApp.stop_reminders s false
  | .timerTick => QuranReminderApp.fetch_and_show_ayah s
  | .showNow => QuranReminderApp.fetch_and_show_ayah s
  | .fetchDone (.emitted e) => QuranReminderApp.display_ayah s e
  | .fetchDone _ => s
  | .settings r => QuranReminderApp.show_settings s r

/-- Run the application over a sequence of events. -/
def QuranReminderApp.exec (s : AppState) : List Op → AppState
  | [] => s
  | op :: ops => QuranReminderApp.exec (QuranReminderApp.step s op) ops

/-- A concrete configuration (the default values), used to instantiate
theorems at concrete states. -/
def sampleConfig : Config :=
  { interval_minutes := 60, max_length := 250, auto_start := true,
    language := "both", notification_duration := 25, theme := "light" }

/-- The application state right after `__init__` with the default
configuration and no pre-existing settings file. -/
def sampleState : AppState := QuranReminderApp.init sampleConfig none

/-! ### Helper lemmas about the fetch loop -/

lemma isTooLong_success_iff (m : Nat) (a p : String) (su ay : Nat) :
    isTooLong m (.success a p su ay) = true ↔
      m < (composeMessage a p (composeReference su ay)).length := by
  simp [isTooLong]

lemma isTooLong_eq_true_iff (m : Nat) (r : ApiResult) :
    isTooLong m r = true ↔
      ∃ a p su ay, r = .success a p su ay ∧
        m < (composeMessage a p (composeReference su ay)).length := by
  cases r with
  | failure => simp [isTooLong]
  | success a p su ay =>
      simp only [isTooLong, decide_eq_true_eq]
      constructor
      · intro h; exact ⟨a, p, su, ay, rfl, h⟩
      · rintro ⟨a2, p2, su2, ay2, heq, h⟩
        cases heq
        exact h

/-- A message emitted by the loop was composed from the emitted fields and
passed the length check. -/
lemma fetchLoop_emitted_length (m : Nat) (resp : Nat → ApiResult) :
    ∀ (fuel start : Nat) (e : Emitted),
      fetchLoop m resp start fuel = .emitted e →
      (composeMessage e.arabic e.persian e.reference).length ≤ m := by
  intro fuel
  induction fuel with
  | zero => intro start e h; simp [fetchLoop] at h
  | succ n ih =>
      intro start e h
      rw [fetchLoop] at h
      cases hr : resp start with
      | failure => rw [hr] at h; simp at h
      | success a p su ay =>
          rw [hr] at h
          simp only at h
          by_cases hle :
            (composeMessage a p (composeReference su ay)).length ≤ m
          · rw [if_pos hle] at h
            cases h
            exact hle
          · rw [if_neg hle] at h
            exact ih (start + 1) e h

/-- If the first `i` attempts all compose too-long messages and attempt `i`
parses to a message within the bound, the loop (given fuel past `i`) emits
exactly attempt `i`'s fields. -/
lemma fetchLoop_first_fit (m : Nat) (resp : Nat → ApiResult) :
    ∀ (i start : Nat) (a p : String) (su ay : Nat),
      (∀ j, j < i → isTooLong m (resp (start + j)) = true) →
      resp (start + i) = .success a p su ay →
      (composeMessage a p (composeReference su ay)).length ≤ m →
      ∀ fuel, i < fuel →
        fetchLoop m resp start fuel = .emitted ⟨a, p, composeReference su ay⟩ := by
  intro i
  induction i with
  | zero =>
      intro start a p su ay _hpre hr hlen fuel hfuel
      cases fuel with
      | zero => omega
      | succ n =>
          rw [Nat.add_zero] at hr
          rw [fetchLoop, hr]
          simp only
          rw [if_pos hlen]
  | succ k ih =>
      intro start a p su ay hpre hr hlen fuel hfuel
      cases fuel with
      | zero => omega
      | succ n =>
          have h0 : isTooLong m (resp (start + 0)) = true := hpre 0 (by omega)
          rw [Nat.add_zero] at h0
          obtain ⟨a0, p0, su0, ay0, hr0, hlong0⟩ :=
            (isTooLong_eq_true_iff m (resp start)).1 h0
          rw [fetchLoop, hr0]
          simp only
          rw [if_neg (by omega)]
          have hpre2 : ∀ j, j < k → isTooLong m (resp (start + 1 + j)) = true := by
            intro j hj
            have := hpre (j + 1) (by omega)
            have harith : start + (j + 1) = start + 1 + j := by omega
            rwa [harith] at this
          have hr2 : resp (start + 1 + k) = .success a p su ay := by
            have harith : start + 1 + k = start + (k + 1) := by omega
            rwa [harith]
          exact ih (start + 1) a p su ay hpre2 hr2 hlen n (by omega)

/-- If the first `i` attempts all compose too-long messages and attempt `i`
fails (request error, bad status, or malformed JSON), the loop ends in the
silent exception path. -/
lemma fetchLoop_first_failure (m : Nat) (resp : Nat → ApiResult) :
    ∀ (i start : Nat),
      (∀ j, j < i → isTooLong m (resp (start + j)) = true) →
      resp (start + i) = .failure →
      ∀ fuel, i < fuel → fetchLoop m resp start fuel = .silentFail := by
  intro i
  induction i with
  | zero =>
      intro start _hpre hr fuel hfuel
      cases fuel with
      | zero => omega
      | succ n =>
          rw [Nat.add_zero] at hr
          rw [fetchLoop, hr]
  | succ k ih =>
      intro start hpre hr fuel hfuel
      cases fuel with
      | zero => omega
      | succ n =>
          have h0 : isTooLong m (resp (start + 0)) = true := hpre 0 (by omega)
          rw [Nat.add_zero] at h0
          obtain ⟨a0, p0, su0, ay0, hr0, hlong0⟩ :=
            (isTooLong_eq_true_iff m (resp start)).1 h0
          rw [fetchLoop, hr0]
          simp only
          rw [if_neg (by omega)]
          have hpre2 : ∀ j, j < k → isTooLong m (resp (start + 1 + j)) = true := by
            intro j hj
            have := hpre (j + 1) (by omega)
            have harith : start + (j + 1) = start + 1 + j := by omega
            rwa [harith] at this
          have hr2 : resp (start + 1 + k) = .failure := by
            have harith : start + 1 + k = start + (k + 1) := by omega
            rwa [harith]
          exact ih (start + 1) hpre2 hr2 n (by omega)

/-- If every attempt composes a too-long message, the loop is still
running whatever the fuel: it never terminates and never emits. -/
lemma fetchLoop_all_tooLong (m : Nat) (resp : Nat → ApiResult)
    (h : ∀ j, isTooLong m (resp j) = true) :
    ∀ (fuel start : Nat), fetchLoop m resp start fuel = .outOfFuel := by
  intro fuel
  induction fuel with
  | zero => intro start; rfl
  | succ n ih =>
      intro start
      obtain ⟨a, p, su, ay, hr, hlong⟩ :=
        (isTooLong_eq_true_iff m (resp start)).1 (h start)
      rw [fetchLoop, hr]
      simp only
      rw [if_neg (by omega)]
      exact ih (start + 1)

/-! ### Helper lemmas about the instrumented fetch loop -/

/-- The instrumented loop computes the same outcome as the plain loop. -/
lemma fetchLoopTrace_outcome (m : Nat) (resp : Nat → ApiResult) :
    ∀ (fuel start : Nat),
      (fetchLoopTrace m resp start fuel).1 = fetchLoop m resp start fuel := by
  intro fuel
  induction fuel with
  | zero => intro start; rfl
  | succ n ih =>
      intro start
      rw [fetchLoopTrace, fetchLoop]
      cases hr : resp start with
      | failure => simp
      | success a p su ay =>
          simp only
          by_cases hle :
            (composeMessage a p (composeReference su ay)).length ≤ m
          · rw [if_pos hle, if_pos hle]
          · rw [if_neg hle, if_neg hle]
            exact ih (start + 1)

/-- At most one `ayah_fetched.emit` happens in a run. -/
lemma fetchLoopTrace_emits_le_one (m : Nat) (resp : Nat → ApiResult) :
    ∀ (fuel start : Nat), (fetchLoopTrace m resp start fuel).2.2 ≤ 1 := by
  intro fuel
  induction fuel with
  | zero => intro start; simp [fetchLoopTrace]
  | succ n ih =>
      intro start
      rw [fetchLoopTrace]
      cases hr : resp start with
      | failure => simp
      | success a p su ay =>
          simp only
          by_cases hle :
            (composeMessage a p (composeReference su ay)).length ≤ m
          · rw [if_pos hle]
          · rw [if_neg hle]
            exact ih (start + 1)

/-- The signal is emitted exactly once precisely when the run's outcome is
an emission. -/
lemma fetchLoopTrace_emits_iff (m : Nat) (resp : Nat → ApiResult) :
    ∀ (fuel start : Nat),
      (∃ e, (fetchLoopTrace m resp start fuel).1 = .emitted e) ↔
        (fetchLoopTrace m resp start fuel).2.2 = 1 := by
  intro fuel
  induction fuel with
  | zero => intro start; simp [fetchLoopTrace]
  | succ n ih =>
      intro start
      rw [fetchLoopTrace]
      cases hr : resp start with
      | failure => simp
      | success a p su ay =>
          simp only
          by_cases hle :
            (composeMessage a p (composeReference su ay)).length ≤ m
          · rw [if_pos hle]
            simp
          · rw [if_neg hle]
            exact ih (start + 1)

/-- The number of verse-API GETs is bounded by the number of loop
iterations allowed: each executed attempt issues exactly one GET. -/
lemma fetchLoopTrace_gets_le (m : Nat) (resp : Nat → ApiResult) :
    ∀ (fuel start : Nat), (fetchLoopTrace m resp start fuel).2.1 ≤ fuel := by
  intro fuel
  induction fuel with
  | zero => intro start; simp [fetchLoopTrace]
  | succ n ih =>
      intro start
      rw [fetchLoopTrace]
      cases hr : resp start with
      | failure => simp
      | success a p su ay =>
          simp only
          by_cases hle :
            (composeMessage a p (composeReference su ay)).length ≤ m
          · rw [if_pos hle]
            simp
          · rw [if_neg hle]
            have := ih (start + 1)
            simp only
            omega

/-- With fuel available, the loop always issues its first GET. -/
lemma fetchLoopTrace_gets_pos (m : Nat) (resp : Nat → ApiResult)
    (fuel start : Nat) (h : 0 < fuel) :
    1 ≤ (fetchLoopTrace m resp start fuel).2.1 := by
  cases fuel with
  | zero => omega
  | succ n =>
      rw [fetchLoopTrace]
      cases hr : resp start with
      | failure => simp
      | success a p su ay =>
          simp only
          by_cases hle :
            (composeMessage a p (composeReference su ay)).length ≤ m
          · rw [if_pos hle]
          · rw [if_neg hle]
            simp

/-- A further GET is issued only after a too-long attempt: whenever
attempt `n + 1` executed, attempt `n` composed a too-long message. -/
lemma fetchLoopTrace_gets_prefix (m : Nat) (resp : Nat → ApiResult) :
    ∀ (fuel start n : Nat),
      n + 1 < (fetchLoopTrace m resp start fuel).2.1 →
      isTooLong m (resp (start + n)) = true := by
  intro fuel
  induction fuel with
  | zero => intro start n h; simp [fetchLoopTrace] at h
  | succ k ih =>
      intro start n h
      rw [fetchLoopTrace] at h
      cases hr : resp start with
      | failure => rw [hr] at h; simp at h
      | success a p su ay =>
          rw [hr] at h
          simp only at h
          by_cases hle :
            (composeMessage a p (composeReference su ay)).length ≤ m
          · rw [if_pos hle] at h
            simp at h
          · rw [if_neg hle] at h
            simp only at h
            cases n with
            | zero =>
                rw [Nat.add_zero, hr]
                exact (isTooLong_success_iff m a p su ay).2 (by omega)
            | succ j =>
                have := ih (start + 1) j (by omega)
                have harith : start + 1 + j = start + (j + 1) := by omega
                rwa [harith] at this

/-- Retry is unconditional: if attempt `n` executed and composed a
too-long message, and fuel permits, attempt `n + 1` also executes (issues
its GET). -/
lemma fetchLoopTrace_retry (m : Nat) (resp : Nat → ApiResult) :
    ∀ (fuel start n : Nat),
      n < (fetchLoopTrace m resp start fuel).2.1 →
      isTooLong m (resp (start + n)) = true →
      n + 1 < fuel →
      n + 1 < (fetchLoopTrace m resp start fuel).2.1 := by
  intro fuel
  induction fuel with
  | zero => intro start n h; simp [fetchLoopTrace] at h
  | succ k ih =>
      intro start n h hlong hfuel
      rw [fetchLoopTrace] at h ⊢
      cases hr : resp start with
      | failure =>
          rw [hr] at h
          simp only at h
          have hn : n = 0 := by omega
          rw [hn, Nat.add_zero, hr] at hlong
          simp [isTooLong] at hlong
      | success a p su ay =>
          rw [hr] at h
          simp only at h ⊢
          by_cases hle :
            (composeMessage a p (composeReference su ay)).length ≤ m
          · rw [if_pos hle] at h
            have h1 : n < 1 := by simpa using h
            have hn : n = 0 := by omega
            rw [hn, Nat.add_zero, hr] at hlong
            rw [isTooLong_success_iff] at hlong
            exact absurd (Nat.lt_of_lt_of_le hlong hle) (Nat.lt_irrefl m)
          · rw [if_neg hle] at h ⊢
            simp only at h ⊢
            cases n with
            | zero =>
                have := fetchLoopTrace_gets_pos m resp k (start + 1) (by omega)
                omega
            | succ j =>
                have hlong2 : isTooLong m (resp (start + 1 + j)) = true := by
                  have harith : start + 1 + j = start + (j + 1) := by omega
                  rwa [harith]
                have := ih (start + 1) j (by omega) hlong2 (by omega)
                omega

/-- If an executed attempt parses and its composed message is within the
bound, the run's outcome is the emission of exactly that attempt's
fields. -/
lemma fetchLoopTrace_emit_at (m : Nat) (resp : Nat → ApiResult) :
    ∀ (fuel start n : Nat) (a p : String) (su ay : Nat),
      n < (fetchLoopTrace m resp start fuel).2.1 →
      resp (start + n) = .success a p su ay →
      isTooLong m (resp (start + n)) = false →
      (fetchLoopTrace m resp start fuel).1 =
        .emitted ⟨a, p, composeReference su ay⟩ := by
  intro fuel
  induction fuel with
  | zero => intro start n a p su ay h; simp [fetchLoopTrace] at h
  | succ k ih =>
      intro start n a p su ay h hr hshort
      rw [fetchLoopTrace] at h ⊢
      cases hr0 : resp start with
      | failure =>
          rw [hr0] at h
          simp only at h
          have hn : n = 0 := by omega
          rw [hn, Nat.add_zero, hr0] at hr
          exact absurd hr (by simp)
      | success a0 p0 su0 ay0 =>
          rw [hr0] at h
          simp only at h ⊢
          by_cases hle :
            (composeMessage a0 p0 (composeReference su0 ay0)).length ≤ m
          · rw [if_pos hle] at h ⊢
            have h1 : n < 1 := by simpa using h
            have hn : n = 0 := by omega
            rw [hn, Nat.add_zero, hr0] at hr
            cases hr
            rfl
          · rw [if_neg hle] at h ⊢
            simp only at h ⊢
            cases n with
            | zero =>
                rw [Nat.add_zero, hr0] at hshort
                have hshort2 :
                    ¬ m < (composeMessage a0 p0 (composeReference su0 ay0)).length := by
                  simpa [isTooLong] using hshort
                exact absurd (Nat.le_of_not_lt hshort2) hle
            | succ j =>
                have harith : start + (j + 1) = start + 1 + j := by omega
                rw [harith] at hr hshort
                exact ih (start + 1) j a p su ay (by omega) hr hshort

/-! ### Helper lemmas about the application state machine -/

/-- The tray-menu enablement invariant: 'Start Reminders' is enabled iff
the periodic timer is inactive, 'Pause Reminders' is enabled iff it is
active. -/
def menuMirrorsTimer (s : AppState) : Prop :=
  s.start_enabled = !s.timerActive ∧ s.stop_enabled = s.timerActive

lemma menuMirrorsTimer_start (s : AppState) (silent : Bool) :
    menuMirrorsTimer (QuranReminderApp.start_reminders s silent) := by
  simp [menuMirrorsTimer, QuranReminderApp.start_reminders]

lemma menuMirrorsTimer_stop (s : AppState) (silent : Bool) :
    menuMirrorsTimer (QuranReminderApp.stop_reminders s silent) := by
  simp [menuMirrorsTimer, QuranReminderApp.stop_reminders]

lemma menuMirrorsTimer_step (s : AppState) (op : Op)
    (h : menuMirrorsTimer s) : menuMirrorsTimer (QuranReminderApp.step s op) := by
  cases op with
  | startRem => exact menuMirrorsTimer_start s false
  | stopRem => exact menuMirrorsTimer_stop s false
  | timerTick =>
      simpa [menuMirrorsTimer, QuranReminderApp.step,
        QuranReminderApp.fetch_and_show_ayah] using h
  | showNow =>
      simpa [menuMirrorsTimer, QuranReminderApp.step,
        QuranReminderApp.fetch_and_show_ayah] using h
  | fetchDone out =>
      cases out with
      | emitted e =>
          simpa [menuMirrorsTimer, QuranReminderApp.step,
            QuranReminderApp.display_ayah] using h
      | silentFail => exact h
      | outOfFuel => exact h
  | settings r =>
      cases r with
      | rejected => exact h
      | accepted v writeOk =>
          simp only [QuranReminderApp.step, QuranReminderApp.show_settings]
          split
          · exact menuMirrorsTimer_start _ true
          · simpa [menuMirrorsTimer] using h

lemma menuMirrorsTimer_exec (s : AppState)
    (h : menuMirrorsTimer s) :
    ∀ ops : List Op, menuMirrorsTimer (QuranReminderApp.exec s ops) := by
  intro ops
  induction ops generalizing s with
  | nil => exact h
  | cons op rest ih =>
      exact ih (QuranReminderApp.step s op) (menuMirrorsTimer_step s op h)

lemma menuMirrorsTimer_init (loaded : Config) (fileAtInit : Option Config) :
    menuMirrorsTimer (QuranReminderApp.init loaded fileAtInit) := by
  rw [QuranReminderApp.init]
  split
  · exact menuMirrorsTimer_start _ true
  · simp [menuMirrorsTimer]

/-! ### Claim theorems -/

/-- Claim C1, counterexample to the claim as stated: the claim requires
every emitted message's composed text length to be strictly below the
configured bound, but `AyahFetcher.run` emits on `len(message) <=
self.max_length`.  With `max_length = 14` and a response whose composed
message has length exactly 14, the fetcher emits even though the length
is not below the bound. -/
theorem claim_C1_counterexample :
    AyahFetcher.run 14 true (fun _ => .success "" "" 1 1) 1 =
      .emitted ⟨"", "", "Quran 1:1"⟩ ∧
    ¬ (composeMessage "" "" "Quran 1:1").length < 14 := by
  constructor
  · decide
  · decide

/-- Claim C1 (amended: "below" weakened to "at most"): for every
configured bound and every sequence of API responses, any payload the
fetcher emits comes from a composed text whose length is at most the
configured bound `max_length`; the fetcher never emits a result whose
composed message exceeds the bound. -/
theorem claim_C1_emitted_within_bound (max_length : Nat) (online : Bool)
    (resp : Nat → ApiResult) (fuel : Nat) (e : Emitted)
    (h : AyahFetcher.run max_length online resp fuel = .emitted e) :
    (composeMessage e.arabic e.persian e.reference).length ≤ max_length := by
  cases online with
  | false => simp [AyahFetcher.run] at h
  | true =>
      simp only [AyahFetcher.run, if_true] at h
      exact fetchLoop_emitted_length max_length resp fuel 0 e h

/-- Claim C1, witness: a run that does emit, with the bound holding. -/
theorem claim_C1_emitted_within_bound_witness :
    (composeMessage "" "" "Quran 1:1").length ≤ 250 :=
  claim_C1_emitted_within_bound 250 true (fun _ => .success "" "" 1 1) 1
    ⟨"", "", "Quran 1:1"⟩ (by decide)

/-- Claim C2: each fetch attempt picks a random integer in
`[1, total_ayahs]`, issues one HTTP GET (the instrumented loop counts one
GET per executed attempt, never exceeding the iteration budget), parses
the response and checks the composed message's length; it retries
unconditionally exactly when the message is too long (an attempt `n + 1`
runs iff attempt `n` was too long and budget remains); it emits exactly
one result when the length check passes (the emit counter is `1` iff the
outcome is an emission, and an executed attempt that parses within the
bound makes the outcome exactly that attempt's emission); and no run
emits more than one result (the emit counter never exceeds `1`). -/
theorem claim_C2_attempt_structure (m : Nat) (resp : Nat → ApiResult)
    (start fuel : Nat) (randoms : Nat → Nat) (k : Nat) :
    (1 ≤ ayahNumberAt randoms k ∧ ayahNumberAt randoms k ≤ total_ayahs) ∧
    (fetchLoopTrace m resp start fuel).1 = fetchLoop m resp start fuel ∧
    (fetchLoopTrace m resp start fuel).2.1 ≤ fuel ∧
    (fetchLoopTrace m resp start fuel).2.2 ≤ 1 ∧
    ((∃ e, (fetchLoopTrace m resp start fuel).1 = .emitted e) ↔
      (fetchLoopTrace m resp start fuel).2.2 = 1) ∧
    (∀ n, n + 1 < (fetchLoopTrace m resp start fuel).2.1 →
      isTooLong m (resp (start + n)) = true) ∧
    (∀ n, n < (fetchLoopTrace m resp start fuel).2.1 →
      isTooLong m (resp (start + n)) = true → n + 1 < fuel →
      n + 1 < (fetchLoopTrace m resp start fuel).2.1) ∧
    (∀ n a p su ay, n < (fetchLoopTrace m resp start fuel).2.1 →
      resp (start + n) = .success a p su ay →
      isTooLong m (resp (start + n)) = false →
      (fetchLoopTrace m resp start fuel).1 =
        .emitted ⟨a, p, composeReference su ay⟩) := by
  refine ⟨⟨?_, ?_⟩, fetchLoopTrace_outcome m resp fuel start,
    fetchLoopTrace_gets_le m resp fuel start,
    fetchLoopTrace_emits_le_one m resp fuel start,
    fetchLoopTrace_emits_iff m resp fuel start,
    fun n hn => fetchLoopTrace_gets_prefix m resp fuel start n hn,
    fun n hn hlong hfuel => fetchLoopTrace_retry m resp fuel start n hn hlong hfuel,
    fun n a p su ay hn hr hshort =>
      fetchLoopTrace_emit_at m resp fuel start n a p su ay hn hr hshort⟩
  · simp [ayahNumberAt, randint]
  · have : randoms k % (total_ayahs + 1 - 1) < total_ayahs := by
      have h6236 : 0 < total_ayahs := by decide
      simpa using Nat.mod_lt (randoms k) h6236
    simp only [ayahNumberAt, randint]
    omega

/-- Claim C2, witness: with bound `0` every attempt is too long, so a
second GET is issued only after the first too-long attempt. -/
theorem claim_C2_attempt_structure_witness :
    isTooLong 0 (ApiResult.success "" "" 1 1) = true :=
  (claim_C2_attempt_structure 0 (fun _ => .success "" "" 1 1) 0 2
      (fun _ => 0) 0).2.2.2.2.2.1 0 (by decide)

/-- Claim C3: every failure during a fetch ends the run in the silent
exception path.  A failed connectivity check (`online = false`) returns
silently; an HTTP error, non-success status, or malformed or incomplete
JSON at any reached attempt (`ApiResult.failure`, after any number of
too-long retries) also returns silently.  The run is a total function (no
exception escapes), delivering a non-emission outcome to the application
changes nothing — no notification is displayed, no tray message is shown,
and the periodic timer keeps its state — so the next timer tick starts a
fresh fetch with the configured bound. -/
theorem claim_C3_fail_silently (m fuel i : Nat) (resp : Nat → ApiResult)
    (s : AppState)
    (hpre : ∀ j, j < i → isTooLong m (resp j) = true)
    (hfail : resp i = .failure) (hfuel : i < fuel) :
    AyahFetcher.run m false resp fuel = .silentFail ∧
    AyahFetcher.run m true resp fuel = .silentFail ∧
    QuranReminderApp.step s (.fetchDone .silentFail) = s ∧
    QuranReminderApp.step s (.fetchDone .outOfFuel) = s ∧
    (QuranReminderApp.step s .timerTick).timerActive = s.timerActive ∧
    (QuranReminderApp.step s .timerTick).timerInterval = s.timerInterval ∧
    (QuranReminderApp.step s .timerTick).lastFetcherMax = some s.config.max_length := by
  refine ⟨rfl, ?_, rfl, rfl, rfl, rfl, rfl⟩
  show fetchLoop m resp 0 fuel = .silentFail
  exact fetchLoop_first_failure m resp i 0
    (by intro j hj; rw [Nat.zero_add]; exact hpre j hj)
    (by rw [Nat.zero_add]; exact hfail) fuel hfuel

/-- Claim C3, witness: a run whose first GET fails returns silently. -/
theorem claim_C3_fail_silently_witness :
    AyahFetcher.run 250 true (fun _ => ApiResult.failure) 1 = .silentFail :=
  (claim_C3_fail_silently 250 1 0 (fun _ => .failure) sampleState
    (fun j hj => absurd hj (Nat.not_lt_zero j)) rfl (by decide)).2.1

/-- Claim C4: the retry loop terminates exactly when the length
constraint is satisfied.  If the attempts before `i` all composed
too-long messages and attempt `i` composes a message within the bound,
the loop stops at attempt `i` and emits exactly its fields (for any fuel
past `i`).  If every attempt composes a too-long message, the loop is
still running whatever the fuel — it never terminates and never emits. -/
theorem claim_C4_loop_termination (m : Nat) (resp : Nat → ApiResult) :
    (∀ i a p su ay fuel,
      (∀ j, j < i → isTooLong m (resp j) = true) →
      resp i = .success a p su ay →
      (composeMessage a p (composeReference su ay)).length ≤ m →
      i < fuel →
      fetchLoop m resp 0 fuel = .emitted ⟨a, p, composeReference su ay⟩) ∧
    ((∀ i, isTooLong m (resp i) = true) →
      ∀ fuel, fetchLoop m resp 0 fuel = .outOfFuel) := by
  constructor
  · intro i a p su ay fuel hpre hr hlen hfuel
    exact fetchLoop_first_fit m resp i 0 a p su ay
      (by intro j hj; rw [Nat.zero_add]; exact hpre j hj)
      (by rw [Nat.zero_add]; exact hr) hlen fuel hfuel
  · intro h fuel
    exact fetchLoop_all_tooLong m resp h fuel 0

/-- Claim C4, witness: with bound `0` every message is too long and the
loop is still running after three attempts. -/
theorem claim_C4_loop_termination_witness :
    fetchLoop 0 (fun _ => ApiResult.success "" "" 1 1) 0 3 = .outOfFuel :=
  (claim_C4_loop_termination 0 (fun _ => .success "" "" 1 1)).2
    (fun _ => by decide) 3

/-- Claim C5: `start_reminders` starts the timer with period
`interval_minutes * 60 * 1000` milliseconds taken from the current
configuration; timer ticks, manual fetches, fetch completions and a
cancelled settings dialog leave the period unchanged; and when a saved
settings change goes through `show_settings` with the timer active, the
timer is restarted with the period derived from the new configuration. -/
theorem claim_C5_fixed_interval_timer (s : AppState) (silent writeOk : Bool)
    (v : DialogValues) (out : RunOutcome) :
    (QuranReminderApp.start_reminders s silent).timerInterval =
      s.config.interval_minutes * 60 * 1000 ∧
    (QuranReminderApp.start_reminders s silent).timerActive = true ∧
    (QuranReminderApp.step s .timerTick).timerInterval = s.timerInterval ∧
    (QuranReminderApp.step s .timerTick).timerActive = s.timerActive ∧
    (QuranReminderApp.step s .showNow).timerInterval = s.timerInterval ∧
    (QuranReminderApp.step s (.fetchDone out)).timerInterval = s.timerInterval ∧
    (QuranReminderApp.step s (.settings .rejected)).timerInterval = s.timerInterval ∧
    (s.timerActive = true →
      (QuranReminderApp.step s (.settings (.accepted v writeOk))).timerInterval =
        v.interval_minutes * 60 * 1000) := by
  refine ⟨rfl, rfl, rfl, rfl, rfl, ?_, rfl, ?_⟩
  · cases out with
    | emitted e => rfl
    | silentFail => rfl
    | outOfFuel => rfl
  · intro ht
    simp [QuranReminderApp.step, QuranReminderApp.show_settings,
      QuranReminderApp.start_reminders, QuranReminderApp.stop_reminders,
      SettingsDialog.save_settings, ht]

/-- Claim C5, witness: saving an interval of 30 minutes while the timer
runs restarts it with a 1800000 ms period. -/
theorem claim_C5_fixed_interval_timer_witness :
    (QuranReminderApp.step sampleState
        (.settings (.accepted ⟨0, 30, 0, 10, 200, false⟩ true))).timerInterval =
      30 * 60 * 1000 :=
  (claim_C5_fixed_interval_timer sampleState true true
      ⟨0, 30, 0, 10, 200, false⟩ .silentFail).2.2.2.2.2.2.2 (by decide)

/-- Claim C6: settings persistence round-trips.  After a successful
`save_config`, `load_config` (with the written file present and readable)
returns exactly the configuration that was saved, whatever was in the
file before; and the file written depends only on the configuration —
`save_config` persists nothing else. -/
theorem claim_C6_config_roundtrip (cfg : JVal) (fs fs2 : FileState) :
    QuranReminderApp.load_config (QuranReminderApp.save_config cfg fs true) = cfg ∧
    QuranReminderApp.save_config cfg fs true =
      QuranReminderApp.save_config cfg fs2 true :=
  ⟨rfl, rfl⟩

/-- Claim C8: the settings dialog is atomic with respect to the
configuration.  Rejecting the dialog leaves the whole application state —
in particular the in-memory config and the settings file — unchanged;
accepting via 'Save Settings' replaces the config with the dialog's
updated copy and persists exactly that copy; and no other event
(menu actions, ticks, fetch completions) touches the config or the file. -/
theorem claim_C8_settings_dialog_atomic (s : AppState) (v : DialogValues)
    (out : RunOutcome) :
    QuranReminderApp.step s (.settings .rejected) = s ∧
    (QuranReminderApp.step s (.settings (.accepted v true))).config =
      SettingsDialog.save_settings s.config v ∧
    (QuranReminderApp.step s (.settings (.accepted v true))).configFile =
      some (SettingsDialog.save_settings s.config v) ∧
    (QuranReminderApp.step s .startRem).configFile = s.configFile ∧
    (QuranReminderApp.step s .stopRem).configFile = s.configFile ∧
    (QuranReminderApp.step s .timerTick).configFile = s.configFile ∧
    (QuranReminderApp.step s .showNow).configFile = s.configFile ∧
    (QuranReminderApp.step s (.fetchDone out)).configFile = s.configFile ∧
    (QuranReminderApp.step s .startRem).config = s.config ∧
    (QuranReminderApp.step s .stopRem).config = s.config ∧
    (QuranReminderApp.step s .timerTick).config = s.config ∧
    (QuranReminderApp.step s (.fetchDone out)).config = s.config := by
  have hout1 : (QuranReminderApp.step s (.fetchDone out)).configFile = s.configFile := by
    cases out with
    | emitted e => rfl
    | silentFail => rfl
    | outOfFuel => rfl
  have hout2 : (QuranReminderApp.step s (.fetchDone out)).config = s.config := by
    cases out with
    | emitted e => rfl
    | silentFail => rfl
    | outOfFuel => rfl
  refine ⟨rfl, ?_, ?_, rfl, rfl, rfl, rfl, hout1, rfl, rfl, rfl, hout2⟩
  · simp [QuranReminderApp.step, QuranReminderApp.show_settings,
      QuranReminderApp.start_reminders, QuranReminderApp.stop_reminders]
    split <;> rfl
  · simp [QuranReminderApp.step, QuranReminderApp.show_settings,
      QuranReminderApp.start_reminders, QuranReminderApp.stop_reminders]
    split <;> rfl

/-- Claim C9: `load_config` is total (no exception escapes), returns
`DEFAULT_CONFIG` when the file is absent and when the file's contents
fail to parse, returns any successfully parsed JSON value as-is with no
validation or merging of default keys — so a valid file missing the
`interval_minutes` key yields a configuration missing that key. -/
theorem claim_C9_load_config_behaviour (j : JVal)
    (fields : List (String × JVal))
    (hmissing : fields.lookup "interval_minutes" = none) :
    QuranReminderApp.load_config none = DEFAULT_CONFIG ∧
    QuranReminderApp.load_config (some none) = DEFAULT_CONFIG ∧
    QuranReminderApp.load_config (some (some j)) = j ∧
    jlookup (QuranReminderApp.load_config (some (some (.jobj fields))))
      "interval_minutes" = none := by
  refine ⟨rfl, rfl, rfl, ?_⟩
  simp [QuranReminderApp.load_config, jlookup, hmissing]

/-- Claim C9, witness: a valid file holding only `max_length` loads with
`interval_minutes` missing. -/
theorem claim_C9_load_config_behaviour_witness :
    jlookup (QuranReminderApp.load_config
        (some (some (.jobj [("max_length", .jnum 250)]))))
      "interval_minutes" = none :=
  (claim_C9_load_config_behaviour .jnull [("max_length", .jnum 250)]
    rfl).2.2.2

/-- Claim C10: the tray menu's start/pause enablement mirrors the timer
state in every reachable application state: starting from `__init__`
(with or without auto-start) and after any sequence of events — in
particular after every `start_reminders` and `stop_reminders` — the
'Start Reminders' action is enabled iff the periodic timer is inactive
and the 'Pause Reminders' action is enabled iff it is active. -/
theorem claim_C10_menu_enablement (loaded : Config) (fileAtInit : Option Config)
    (ops : List Op) :
    ((QuranReminderApp.exec (QuranReminderApp.init loaded fileAtInit) ops).start_enabled =
      !(QuranReminderApp.exec (QuranReminderApp.init loaded fileAtInit) ops).timerActive) ∧
    ((QuranReminderApp.exec (QuranReminderApp.init loaded fileAtInit) ops).stop_enabled =
      (QuranReminderApp.exec (QuranReminderApp.init loaded fileAtInit) ops).timerActive) :=
  menuMirrorsTimer_exec _ (menuMirrorsTimer_init loaded fileAtInit) ops

end QuranReminder
